import Mathlib

/-!
Shallow embedding of the ingestion-and-retrieval orchestrator implemented in
`backend/main.py` (a FastAPI RAG backend over Milvus, sentence-transformers
embeddings and a remote LLM), together with theorems settling the frozen
claims about its specification.

Modelling conventions:
* External collaborators (embedding models, the vector store's search, the
  generation LLM) are black boxes, passed in an `Env` record of functions.
* Nondeterministic inputs of the code (`uuid.uuid4()`, `datetime.now()`) are
  explicit parameters.
* The process-global mutable state (`embedding_models` cache, the Milvus
  collection) is threaded explicitly (`CacheState`, `MilvusState`).
* Python exceptions are modelled with `Except`: each endpoint's `raise
  HTTPException(status, detail)` becomes `.error ⟨status, detail⟩`.  A
  FastAPI `HTTPException` is a subclass of `Exception`, so a blanket
  `except Exception` inside an endpoint catches it; the embedding mirrors
  that control flow exactly where the code has such handlers.
* Store operations (`insert`, `delete`, `query`) are modelled as total
  (the non-raising case); rows live in `MilvusState.rows`.  `query` with
  `limit=n` is modelled as taking a prefix of at most `n` matching rows.
* JSON (de)serialization of chunk metadata at the storage boundary is
  modelled as the identity on a structured `ChunkMeta` value.
-/

set_option maxRecDepth 8192

namespace RagBackend

/-- A sentence-transformers embedding model, as the black box `text → vector`
of §6: a fixed output dimension and an encode function producing vectors of
that dimension.  Vector components are modelled as integers (their numeric
values never matter to the orchestration logic). -/
structure SentenceTransformerModel where
  dim : Nat
  encode : String → List Int
  encode_dim : ∀ s, (encode s).length = dim

/-- The structured chunk metadata attached at ingestion
(`{"document_name": ..., "chunk_index": ..., "upload_date": ...}`),
serialized to a JSON string at the storage boundary (modelled as identity). -/
structure ChunkMeta where
  document_name : String
  chunk_index : Nat
  upload_date : String
deriving Repr, DecidableEq

/-- One row of the Milvus collection, mirroring the schema fields
`id, document_id, content, embedding, metadata` of `connect_milvus`. -/
structure Row where
  id : String
  document_id : String
  content : String
  embedding : List Int
  metadata : ChunkMeta
deriving Repr, DecidableEq

/-- One search hit as consumed by `ask_question`: its `content` field and the
`document_name` key of its deserialized `metadata` JSON, when present
(the code tests `if "document_name" in metadata`). -/
structure Hit where
  content : String
  document_name : Option String
deriving Repr, DecidableEq

/-- State of the Milvus deployment: whether the collection named
`COLLECTION_NAME` exists, the fixed vector dimension of its embedding field,
and its rows. -/
structure MilvusState where
  hasCollection : Bool
  collectionDim : Nat
  rows : List Row
deriving Repr, DecidableEq

/-- State of the module-global `embedding_models` dict: an association from
model identifier to the loaded provider instance.  Instances are identified
by the `Nat` id they were given when loaded (`nextId` is the next fresh id),
so that "same instance" is meaningful reference equality. -/
structure CacheState where
  entries : List (String × Nat)
  nextId : Nat
deriving Repr, DecidableEq

/-- The external collaborators: the model loader (deterministic per model
identifier, as `SentenceTransformer(model_name)` is), the store's similarity
search (query vector and `limit` to ranked hits, in the store's descending
similarity order), and the LLM completion call (`none` models any failure:
timeout, transport error, malformed response). -/
structure Env where
  models : String → SentenceTransformerModel
  search : List Int → Int → List Hit
  llm : String → String → Option String

/-- A `fastapi.HTTPException(status_code, detail)`. -/
structure HttpError where
  status : Nat
  detail : String
deriving Repr, DecidableEq

/-- Whether an endpoint outcome is an error (HTTP exception) response. -/
def isErr {α : Type} : Except HttpError α → Bool
  | .error _ => true
  | .ok _ => false

/-- Python's `str()` of a starlette `HTTPException`, which renders as
`"<status>: <detail>"`. -/
def pythonStrOfHttpError (e : HttpError) : String :=
  toString e.status ++ ": " ++ e.detail

/-- Fuel-driven worker for the chunker: repeatedly emit a window of
`chunk_size = 1000` characters and advance by `chunk_size - chunk_overlap
= 800` characters. -/
def chunkListAux : Nat → List Char → List (List Char)
  | _, [] => []
  | 0, cs => [cs]
  | fuel + 1, cs =>
    if cs.length ≤ 1000 then [cs]
    else cs.take 1000 :: chunkListAux fuel (cs.drop 800)

/-- Modelled from the spec: the chunker is langchain's
`RecursiveCharacterTextSplitter(chunk_size=1000, chunk_overlap=200,
length_function=len)`, a library external to the repository.  Per §4.1 it
returns an empty sequence on empty input, a single chunk for text shorter
than `chunk_size`, and otherwise overlapping windows of at most 1000
characters whose consecutive overlap is 200 characters. -/
def split_text (t : String) : List String :=
  (chunkListAux t.length t.toList).map fun cs => ⟨cs⟩

/-- `get_embedding_model` (lines 71-76): look the identifier up in the
global cache; on a miss, load the model (here: mint the fresh instance id
`nextId`) and store it; return the cached entry.  The third component
records whether a load happened on this call. -/
def get_embedding_model (c : CacheState) (name : String) :
    Nat × CacheState × Bool :=
  match c.entries.lookup name with
  | some inst => (inst, c, false)
  | none => (c.nextId, ⟨(name, c.nextId) :: c.entries, c.nextId + 1⟩, true)

/-- The collection schema built in `connect_milvus` (lines 85-91):
field name, optional `max_length`, optional vector `dim`, primary flag.
The embedding field's dimension is the literal `384` ("Ajustar según el
modelo"). -/
structure CollectionField where
  name : String
  maxLength : Option Nat
  dim : Option Nat
  isPrimary : Bool
deriving Repr, DecidableEq

/-- The five schema fields of `connect_milvus`, verbatim from the source. -/
def schemaFields : List CollectionField :=
  [⟨"id", some 100, none, true⟩,
   ⟨"document_id", some 100, none, false⟩,
   ⟨"content", some 65535, none, false⟩,
   ⟨"embedding", none, some 384, false⟩,
   ⟨"metadata", some 1000, none, false⟩]

/-- The vector dimension `connect_milvus` puts in the schema: the `dim` of
the `embedding` field, i.e. the hardcoded `384`. -/
def schemaEmbeddingDim : Nat :=
  (((schemaFields.filter (fun f => f.name == "embedding")).head?).bind
    (fun f => f.dim)).getD 0

/-- `connect_milvus` (lines 78-118): connect, create the collection with the
fixed schema if it does not exist, otherwise reuse it as-is; ensure the
cosine index and load.  Connection failure would raise HTTP 500; the model
covers the non-raising case. -/
def connect_milvus (s : MilvusState) : MilvusState :=
  if s.hasCollection then s
  else { s with hasCollection := true, collectionDim := schemaEmbeddingDim }

/-- The success payload of `/api/upload`. -/
structure UploadOk where
  document_id : String
  filename : String
  chunks_count : Nat
deriving Repr, DecidableEq

/-- Result of `/api/upload` together with the updated global state. -/
structure UploadOutput where
  result : Except HttpError UploadOk
  cache : CacheState
  store : MilvusState

/-- Split a character list on `.`, like Python's `str.split(".")`: always at
least one (possibly empty) part, one extra part per dot. -/
def splitOnDot (cs : List Char) : List (List Char) :=
  cs.foldr (fun c acc =>
    match acc with
    | [] => [[c]]
    | a :: rest => if c = '.' then [] :: a :: rest else (c :: a) :: rest) [[]]

/-- Lower-cased final `.`-separated component of the filename
(`file.filename.split(".")[-1].lower()`). -/
def lastExtension (filename : String) : String :=
  match (splitOnDot filename.toList).reverse with
  | [] => ""
  | e :: _ => ⟨e.map Char.toLower⟩

/-- `upload_document` (lines 160-250): validate the extension, extract the
text (extraction is an external collaborator; its output is the
`extractedText` parameter), split into chunks, load the embedding model,
encode every chunk, ensure the collection, build one row per chunk with ids
derived from the fresh uuid and the chunk index, insert the batch, flush,
and report success with the chunk count.  No emptiness check on the text and
no dimension check exist anywhere on this path. -/
def upload_document (env : Env) (cache : CacheState) (store : MilvusState)
    (filename : String) (extractedText : String) (embedding_model : String)
    (uploadDate : String) (freshUuid : String) : UploadOutput :=
  if ["pdf", "txt", "docx", "md"].contains (lastExtension filename) then
    let documents := split_text extractedText
    let cache1 := (get_embedding_model cache embedding_model).2.1
    let model := env.models embedding_model
    let embeddings := documents.map model.encode
    let store1 := connect_milvus store
    let newRows := (documents.zip embeddings).enum.map fun p =>
      { id := freshUuid ++ "_chunk_" ++ toString p.1,
        document_id := freshUuid,
        content := p.2.1,
        embedding := p.2.2,
        metadata := ⟨filename, p.1, uploadDate⟩ : Row }
    let store2 := { store1 with rows := store1.rows ++ newRows }
    { result := .ok ⟨freshUuid, filename, documents.length⟩,
      cache := cache1, store := store2 }
  else
    { result := .error ⟨400, "Tipo de archivo no soportado"⟩,
      cache := cache, store := store }

/-- The success payload of `/api/ask`. -/
structure AskOk where
  answer : String
  sources : List String
  context_chunks : Nat
  question : String
deriving Repr, DecidableEq

/-- Instrumentation of one `/api/ask` run: the arguments of every
`collection.search` call the endpoint issued (query vector and `limit`), and
the assembled grounding context when the run reached that point.  This trace
records observable interactions with the collaborators; it does not alter
the computed result. -/
structure AskTrace where
  searchCalls : List (List Int × Int)
  contextUsed : Option String
deriving Repr, DecidableEq

/-- Result of `/api/ask` with its trace and the updated global state. -/
structure AskOutput where
  result : Except HttpError AskOk
  trace : AskTrace
  cache : CacheState
  store : MilvusState

/-- Insertion-ordered deduplication: the observable content of the Python
`set` the endpoint accumulates source names in (CPython's iteration order
over a set is unspecified; claims about `sources` are stated up to set
equality). -/
def dedupAppend (xs : List String) : List String :=
  xs.foldl (fun acc x => if x ∈ acc then acc else acc ++ [x]) []

/-- The system message of the LLM call (line 312). -/
def llmSystemMessage : String :=
  "Eres un asistente útil que responde preguntas basándose en el contexto proporcionado."

/-- The user prompt built from the grounding context and the question
(lines 292-299). -/
def buildPrompt (context question : String) : String :=
  "Basándote en el siguiente contexto, responde la pregunta de manera precisa y completa.\n\nContexto:\n"
    ++ context ++ "\n\nPregunta: " ++ question ++ "\n\nRespuesta:"

/-- Python's character slice `s[:n]`: the first `n` characters (code
points) of `s`, or all of `s` when it is shorter. -/
def stringTakeChars (s : String) (n : Nat) : String :=
  ⟨s.data.take n⟩

/-- The fallback answer produced when the LLM call fails (line 324,
`f"Error conectando al LLM. Contexto encontrado:\n\n{context[:500]}..."`):
a fixed explanatory prefix, the first 500 characters of the context, and a
literal `"..."` suffix. -/
def fallbackAnswer (context : String) : String :=
  "Error conectando al LLM. Contexto encontrado:\n\n" ++ stringTakeChars context 500 ++ "..."

/-- The body of the `try:` block of `ask_question` (lines 256-331): load the
embedding model, embed the question, ensure the collection, search with
`limit = top_k`, raise 404 on zero matches, collect contents and source
names from the hits, assemble the context and prompt, call the LLM (with the
fallback answer on any LLM failure — the inner `except` around the LLM call
catches everything), and return the answer, sources and chunk count. -/
def ask_question_body (env : Env) (cache : CacheState) (store : MilvusState)
    (question : String) (embedding_model : String) (top_k : Int) : AskOutput :=
  let cache1 := (get_embedding_model cache embedding_model).2.1
  let model := env.models embedding_model
  let question_embedding := model.encode question
  let store1 := connect_milvus store
  let hits := env.search question_embedding top_k
  let calls := [(question_embedding, top_k)]
  if hits.isEmpty then
    { result := .error ⟨404, "No se encontraron documentos relevantes"⟩,
      trace := ⟨calls, none⟩, cache := cache1, store := store1 }
  else
    let relevant_chunks := hits.map (·.content)
    let sources := dedupAppend (hits.filterMap (·.document_name))
    let context := String.intercalate "\n\n" relevant_chunks
    let answer := match env.llm llmSystemMessage (buildPrompt context question) with
      | some a => a
      | none => fallbackAnswer context
    { result := .ok ⟨answer, sources, relevant_chunks.length, question⟩,
      trace := ⟨calls, some context⟩, cache := cache1, store := store1 }

/-- `ask_question` (lines 252-335): the body wrapped in the endpoint's outer
`except Exception` handler, which catches every exception raised inside the
`try:` — including the endpoint's own `HTTPException(404)`, since FastAPI's
`HTTPException` subclasses `Exception` — and re-raises it as
`HTTPException(500, "Error procesando pregunta: " + str(e))`. -/
def ask_question (env : Env) (cache : CacheState) (store : MilvusState)
    (question : String) (embedding_model : String) (top_k : Int) : AskOutput :=
  let out := ask_question_body env cache store question embedding_model top_k
  match out.result with
  | .error e =>
    { out with result :=
        Except.error ⟨500, "Error procesando pregunta: " ++ pythonStrOfHttpError e⟩ }
  | .ok _ => out

/-- One entry of the `/api/documents` listing. -/
structure DocSummary where
  id : String
  name : String
  upload_date : String
  chunks : Nat
deriving Repr, DecidableEq

/-- The rows `list_documents` consults: the collection `query` with
`expr="document_id != ''"` and `limit=1000`, modelled as a prefix of at most
1000 matching rows. -/
def list_documents_queried (s : MilvusState) : List Row :=
  (s.rows.filter (fun r => r.document_id != "")).take 1000

/-- One step of the grouping loop of `list_documents` (lines 352-363): if
the row's document is already in the insertion-ordered dict, increment its
chunk count; otherwise append a new entry seeded with this row's metadata
and chunk count 1 (the code creates the entry with `"chunks": 0` and then
unconditionally increments). -/
def groupStep (acc : List DocSummary) (r : Row) : List DocSummary :=
  if (acc.find? (fun d => d.id == r.document_id)).isSome then
    acc.map fun d =>
      if d.id == r.document_id then { d with chunks := d.chunks + 1 } else d
  else
    acc ++ [⟨r.document_id, r.metadata.document_name,
            r.metadata.upload_date, 1⟩]

/-- The grouping loop of `list_documents` (lines 352-363): an
insertion-ordered dict keyed by `document_id`; the first row seen for a
document contributes its name and upload date, and every row increments the
document's chunk count. -/
def groupDocs (rows : List Row) : List DocSummary :=
  rows.foldl groupStep []

/-- `list_documents` (lines 337-369): ensure the collection, query at most
1000 rows, group them per document. -/
def list_documents (s : MilvusState) : List DocSummary :=
  groupDocs (list_documents_queried (connect_milvus s))

/-- `delete_document` (lines 371-387): ensure the collection, delete every
row whose `document_id` equals the path parameter, and return a success
response — no existence check, no not-found branch. -/
def delete_document (s : MilvusState) (document_id : String) :
    (String × String) × MilvusState :=
  let s1 := connect_milvus s
  let s2 := { s1 with rows := s1.rows.filter (fun r => r.document_id != document_id) }
  (("success", "Documento " ++ document_id ++ " eliminado"), s2)

/-- A concrete embedding model of dimension `d` (every text encodes to the
zero vector of length `d`), used to instantiate the environments below. -/
def stModel (d : Nat) : SentenceTransformerModel :=
  ⟨d, fun _ => List.replicate d 0, fun _ => List.length_replicate _ _⟩

/-- An environment whose models are all 384-dimensional, whose store search
finds nothing, and whose LLM always fails. -/
def env384 : Env :=
  ⟨fun _ => stModel 384, fun _ _ => [], fun _ _ => none⟩

/-- An environment whose models are all 768-dimensional, whose store search
finds nothing, and whose LLM always fails. -/
def env768 : Env :=
  ⟨fun _ => stModel 768, fun _ _ => [], fun _ _ => none⟩

/-- An environment whose store search always returns a single hit (content
`"ctx"`, source `"doc.txt"`) and whose LLM always fails. -/
def envLlmFail : Env :=
  ⟨fun _ => stModel 384, fun _ _ => [⟨"ctx", some "doc.txt"⟩], fun _ _ => none⟩

/-- The empty provider cache. -/
def cache0 : CacheState := ⟨[], 0⟩

/-- A deployment with no collection yet. -/
def emptyStore : MilvusState := ⟨false, 0, []⟩

/-- A deployment whose collection exists with the standard 384 dimension and
no rows. -/
def store384 : MilvusState := ⟨true, 384, []⟩

/-- The answer field of a successful ask response. -/
def answerOf : Except HttpError AskOk → Option String
  | .ok r => some r.answer
  | .error _ => none

/-- The sources field of a successful ask response. -/
def sourcesOf : Except HttpError AskOk → List String
  | .ok r => r.sources
  | .error _ => []

/-- A chunk row of document "A". -/
def rowA : Row := ⟨"c", "A", "x", [], ⟨"a.txt", 0, "2024"⟩⟩

/-- A chunk row of document "B". -/
def rowB : Row := ⟨"c2", "B", "y", [], ⟨"b.txt", 0, "2024"⟩⟩

/-- A deployment holding 1002 chunks: 1001 of document "A" followed by one
of document "B". -/
def bigStore : MilvusState := ⟨true, 384, List.replicate 1001 rowA ++ [rowB]⟩

/-- Refinement-side definition, from the spec's words (§4.6 step 1): the
grounding context is the retrieved content blocks concatenated with a
blank-line separator, in retrieval order. -/
def specGroundingContext (contents : List String) : String :=
  String.intercalate "\n\n" contents

/-- Refinement-side definition, from the spec's words (§4.5 step 6): the set
of distinct `document_name` values across the matches. -/
def specSources (hits : List Hit) : Finset String :=
  (hits.filterMap (·.document_name)).toFinset

/-- Folding the deduplicating accumulator step over `xs` starting from `acc`
collects exactly the union of the elements. -/
theorem dedupAppend_foldl_toFinset (xs acc : List String) :
    (xs.foldl (fun acc x => if x ∈ acc then acc else acc ++ [x]) acc).toFinset
      = acc.toFinset ∪ xs.toFinset := by
  induction xs generalizing acc with
  | nil => simp
  | cons x xs ih =>
    simp only [List.foldl_cons]
    by_cases h : x ∈ acc
    · rw [if_pos h, ih]
      ext a
      simp only [Finset.mem_union, List.mem_toFinset, List.toFinset_cons,
        Finset.mem_insert]
      constructor
      · tauto
      · rintro (ha | rfl | ha) <;> tauto
    · rw [if_neg h, ih]
      ext a
      simp only [Finset.mem_union, List.mem_toFinset, List.toFinset_cons,
        Finset.mem_insert, List.toFinset_append, List.mem_append,
        List.mem_singleton]
      tauto

/-- Folding the deduplicating accumulator step preserves `Nodup`. -/
theorem dedupAppend_foldl_nodup (xs : List String) (acc : List String)
    (h : acc.Nodup) :
    (xs.foldl (fun acc x => if x ∈ acc then acc else acc ++ [x]) acc).Nodup := by
  induction xs generalizing acc with
  | nil => exact h
  | cons x xs ih =>
    simp only [List.foldl_cons]
    by_cases hx : x ∈ acc
    · rw [if_pos hx]
      exact ih acc h
    · rw [if_neg hx]
      refine ih _ ?_
      simp only [List.nodup_append, List.nodup_cons, List.not_mem_nil,
        not_false_iff, List.nodup_nil, and_true, true_and]
      refine ⟨h, ?_⟩
      intro a ha hb
      rw [List.mem_singleton] at hb
      exact hx (hb ▸ ha)

/-- The Python source-name set, as a list, contains exactly the distinct
names. -/
theorem dedupAppend_toFinset (xs : List String) :
    (dedupAppend xs).toFinset = xs.toFinset := by
  rw [dedupAppend, dedupAppend_foldl_toFinset]
  simp

/-- The Python source-name set, as a list, has no duplicates. -/
theorem dedupAppend_nodup (xs : List String) : (dedupAppend xs).Nodup :=
  dedupAppend_foldl_nodup xs [] List.nodup_nil

/-- Claim C7: for every model identifier, a second call of
`get_embedding_model` returns the very instance stored by the first call
(reference equality via instance ids), performs no load, leaves the cache
unchanged, and no previously cached entry is ever evicted by a call. -/
theorem get_embedding_model_cached_second_call (c : CacheState)
    (name n : String) (i : Nat) (h : c.entries.lookup n = some i) :
    (get_embedding_model (get_embedding_model c name).2.1 name).1
        = (get_embedding_model c name).1
      ∧ (get_embedding_model (get_embedding_model c name).2.1 name).2.2 = false
      ∧ (get_embedding_model (get_embedding_model c name).2.1 name).2.1
        = (get_embedding_model c name).2.1
      ∧ ((get_embedding_model c name).2.1).entries.lookup n = some i := by
  cases hl : c.entries.lookup name with
  | some inst =>
    simp [get_embedding_model, hl, h]
  | none =>
    have hne : ¬ n = name := by
      intro e
      rw [e, hl] at h
      exact Option.noConfusion h
    have hbe : (n == name) = false := beq_eq_false_iff_ne.mpr hne
    simp [get_embedding_model, hl, List.lookup, h, hbe]

/-- Witness for C7 at a concrete cache holding one entry. -/
theorem get_embedding_model_cached_second_call_witness :
    ((⟨[("x", 5)], 6⟩ : CacheState).entries.lookup "x" = some 5)
      ∧ ((get_embedding_model (get_embedding_model ⟨[("x", 5)], 6⟩ "m").2.1 "m").1
          = (get_embedding_model (⟨[("x", 5)], 6⟩ : CacheState) "m").1
        ∧ (get_embedding_model (get_embedding_model ⟨[("x", 5)], 6⟩ "m").2.1 "m").2.2 = false
        ∧ (get_embedding_model (get_embedding_model ⟨[("x", 5)], 6⟩ "m").2.1 "m").2.1
          = (get_embedding_model (⟨[("x", 5)], 6⟩ : CacheState) "m").2.1
        ∧ ((get_embedding_model (⟨[("x", 5)], 6⟩ : CacheState) "m").2.1).entries.lookup "x"
          = some 5) :=
  ⟨by decide, get_embedding_model_cached_second_call ⟨[("x", 5)], 6⟩ "m" "x" 5 (by decide)⟩

/-- Claim C10: `delete_document` returns a success response for every
document id — including ids never produced by ingestion — whenever the
store's delete does not raise: there is no existence check and no not-found
branch, and the store afterwards holds exactly the rows of the other
documents. -/
theorem delete_document_always_success (s : MilvusState) (document_id : String) :
    (delete_document s document_id).1.1 = "success"
      ∧ (delete_document s document_id).1.2
        = "Documento " ++ document_id ++ " eliminado"
      ∧ ((delete_document s document_id).2).rows
        = (connect_milvus s).rows.filter (fun r => r.document_id != document_id) :=
  ⟨rfl, rfl, rfl⟩

/-- Claim C1 counterexample: ingesting a supported file whose extracted raw
text is empty is not rejected: at this concrete input the endpoint returns a
success payload with zero chunks, not an error response. -/
theorem upload_empty_text_not_rejected_cex :
    (upload_document env384 cache0 emptyStore "doc.txt" "" "m" "2024-01-01" "u1").result
        = .ok ⟨"u1", "doc.txt", 0⟩
      ∧ isErr (upload_document env384 cache0 emptyStore "doc.txt" "" "m" "2024-01-01" "u1").result
        = false :=
  ⟨rfl, rfl⟩

/-- Claim C1 (amended): for every ingestion request with a supported file
extension whose extracted raw text is empty, the operation performs no
emptiness check: the chunker yields zero chunks and the endpoint reports
success with `chunks_count = 0`, inserting no rows (no `EmptyDocumentError`
exists in the code). -/
theorem upload_empty_text_success_zero_chunks (env : Env) (cache : CacheState)
    (store : MilvusState) (filename embedding_model uploadDate freshUuid : String)
    (h : ["pdf", "txt", "docx", "md"].contains (lastExtension filename) = true) :
    (upload_document env cache store filename "" embedding_model uploadDate freshUuid).result
        = .ok ⟨freshUuid, filename, 0⟩
      ∧ (upload_document env cache store filename "" embedding_model uploadDate freshUuid).store.rows
        = (connect_milvus store).rows := by
  have hsplit : split_text "" = [] := rfl
  have h' : lastExtension filename = "pdf" ∨ lastExtension filename = "txt"
      ∨ lastExtension filename = "docx" ∨ lastExtension filename = "md" := by
    simpa using h
  simp [upload_document, hsplit, h']

/-- Witness for the amended C1 at a concrete request. -/
theorem upload_empty_text_success_zero_chunks_witness :
    (["pdf", "txt", "docx", "md"].contains (lastExtension "doc.txt") = true)
      ∧ ((upload_document env384 cache0 emptyStore "doc.txt" "" "m" "2024-01-01" "u1").result
          = .ok ⟨"u1", "doc.txt", 0⟩
        ∧ (upload_document env384 cache0 emptyStore "doc.txt" "" "m" "2024-01-01" "u1").store.rows
          = (connect_milvus emptyStore).rows) :=
  ⟨by decide,
    upload_empty_text_success_zero_chunks env384 cache0 emptyStore "doc.txt" "m"
      "2024-01-01" "u1" (by decide)⟩

/-- Claim C3 counterexample: ingesting with a 768-dimensional embedding
model into a fresh deployment creates the collection with dimension 384,
not with the provider's output dimension 768. -/
theorem upload_collection_dim_cex :
    ((upload_document env768 cache0 emptyStore "doc.txt" "hello" "big-model" "2024-01-01" "u1").store).collectionDim
        = 384
      ∧ (env768.models "big-model").dim = 768
      ∧ ((upload_document env768 cache0 emptyStore "doc.txt" "hello" "big-model" "2024-01-01" "u1").store).collectionDim
        ≠ (env768.models "big-model").dim :=
  ⟨rfl, rfl, by decide⟩

/-- Claim C3 (amended): for every ingestion request with a supported file
extension against a deployment with no collection yet, the collection is
created with the hardcoded schema dimension 384, regardless of the
embedding provider selected by the request's model identifier. -/
theorem upload_collection_dim_hardcoded (env : Env) (cache : CacheState)
    (store : MilvusState)
    (filename extractedText embedding_model uploadDate freshUuid : String)
    (h : ["pdf", "txt", "docx", "md"].contains (lastExtension filename) = true)
    (h2 : store.hasCollection = false) :
    ((upload_document env cache store filename extractedText embedding_model uploadDate freshUuid).store).hasCollection
        = true
      ∧ ((upload_document env cache store filename extractedText embedding_model uploadDate freshUuid).store).collectionDim
        = schemaEmbeddingDim
      ∧ schemaEmbeddingDim = 384 := by
  have h' : lastExtension filename = "pdf" ∨ lastExtension filename = "txt"
      ∨ lastExtension filename = "docx" ∨ lastExtension filename = "md" := by
    simpa using h
  refine ⟨?_, ?_, rfl⟩ <;> simp [upload_document, connect_milvus, h', h2]

/-- Witness for the amended C3 at a concrete request with a 768-dimensional
model. -/
theorem upload_collection_dim_hardcoded_witness :
    ((["pdf", "txt", "docx", "md"].contains (lastExtension "doc.txt") = true)
        ∧ emptyStore.hasCollection = false)
      ∧ (((upload_document env768 cache0 emptyStore "doc.txt" "hello" "big-model" "2024-01-01" "u1").store).hasCollection
          = true
        ∧ ((upload_document env768 cache0 emptyStore "doc.txt" "hello" "big-model" "2024-01-01" "u1").store).collectionDim
          = schemaEmbeddingDim
        ∧ schemaEmbeddingDim = 384) :=
  ⟨⟨by decide, rfl⟩,
    upload_collection_dim_hardcoded env768 cache0 emptyStore "doc.txt" "hello"
      "big-model" "2024-01-01" "u1" (by decide) rfl⟩

/-- Claim C2 counterexample: with a 768-dimensional embedding model and the
standard 384-dimensional collection, `ask_question` raises no dimension
error and does not skip the search: it invokes the store's search with the
full, untruncated and unpadded 768-length query vector. -/
theorem ask_dimension_mismatch_still_searches_cex :
    ((ask_question env768 cache0 store384 "q" "big-model" 5).trace).searchCalls
        = [(List.replicate 768 0, 5)]
      ∧ (List.replicate 768 0).length = 768
      ∧ store384.collectionDim = 384 :=
  ⟨rfl, by simp, rfl⟩

/-- Claim C2 (amended): `ask_question` performs no dimension check: for
every retrieval request the query embedding is passed unmodified — at its
full model output dimension, never truncated or padded — to the store's
search call, whatever the collection's configured dimension; no
`DimensionMismatchError` exists in the code, and any store-side failure
would surface as a generic 500 server fault. -/
theorem ask_no_dimension_check (env : Env) (cache : CacheState)
    (store : MilvusState) (question embedding_model : String) (top_k : Int) :
    ((ask_question env cache store question embedding_model top_k).trace).searchCalls
        = [((env.models embedding_model).encode question, top_k)]
      ∧ ((env.models embedding_model).encode question).length
        = (env.models embedding_model).dim := by
  refine ⟨?_, (env.models embedding_model).encode_dim question⟩
  cases hemp : (env.search ((env.models embedding_model).encode question) top_k).isEmpty <;>
    simp [ask_question, ask_question_body, hemp]

/-- Claim C4 counterexample: at a concrete request with top_k = 0 the
operation raises no `InvalidArgumentError`: the question is embedded and
the store search is invoked with limit 0 (the eventual response is the
generic 500 of the empty-result path, not a validation error). -/
theorem ask_topk_zero_not_rejected_cex :
    ((ask_question env384 cache0 store384 "q" "m" 0).trace).searchCalls
        = [(List.replicate 384 0, 0)]
      ∧ (ask_question env384 cache0 store384 "q" "m" 0).result
        = .error ⟨500, "Error procesando pregunta: 404: No se encontraron documentos relevantes"⟩ :=
  ⟨rfl, rfl⟩

/-- Claim C4 (amended): no top_k validation exists: for every retrieval
request with top_k ≤ 0, the question is still embedded and the store search
is still invoked, with `limit = top_k` passed through unchanged. -/
theorem ask_topk_not_validated (env : Env) (cache : CacheState)
    (store : MilvusState) (question embedding_model : String) (top_k : Int)
    (_h : top_k ≤ 0) :
    ((ask_question env cache store question embedding_model top_k).trace).searchCalls
      = [((env.models embedding_model).encode question, top_k)] := by
  cases hemp : (env.search ((env.models embedding_model).encode question) top_k).isEmpty <;>
    simp [ask_question, ask_question_body, hemp]

/-- Witness for the amended C4 at a concrete request with top_k = 0. -/
theorem ask_topk_not_validated_witness :
    ((0 : Int) ≤ 0)
      ∧ ((ask_question env384 cache0 store384 "q" "m" 0).trace).searchCalls
        = [((env384.models "m").encode "q", 0)] :=
  ⟨by decide, ask_topk_not_validated env384 cache0 store384 "q" "m" 0 (by decide)⟩

/-- Claim C5 counterexample: at a concrete request where retrieval finds one
chunk of content "ctx" and the generation collaborator fails, the returned
answer is not the explanatory prefix followed by the first 500 characters of
the context: the code appends a further literal "..." suffix. -/
theorem ask_fallback_answer_cex :
    answerOf (ask_question envLlmFail cache0 store384 "q" "m" 5).result
        = some ("Error conectando al LLM. Contexto encontrado:\n\n" ++ "ctx" ++ "...")
      ∧ answerOf (ask_question envLlmFail cache0 store384 "q" "m" 5).result
        ≠ some ("Error conectando al LLM. Contexto encontrado:\n\n" ++ "ctx")
      ∧ stringTakeChars (specGroundingContext ["ctx"]) 500 = "ctx" :=
  ⟨rfl, by decide, rfl⟩

/-- Claim C5 (amended): for every ask request in which retrieval succeeds
(the search returns at least one match) and every generation-collaborator
call fails, the operation surfaces no hard failure: it returns a success
response whose answer is the fixed explanatory prefix, then the first 500
characters of the assembled context, then the literal suffix "...". -/
theorem ask_generation_failure_fallback (env : Env) (cache : CacheState)
    (store : MilvusState) (question embedding_model : String) (top_k : Int)
    (hllm : ∀ s p, env.llm s p = none)
    (hhits : env.search ((env.models embedding_model).encode question) top_k ≠ []) :
    answerOf (ask_question env cache store question embedding_model top_k).result
        = some ("Error conectando al LLM. Contexto encontrado:\n\n"
            ++ stringTakeChars (specGroundingContext
                ((env.search ((env.models embedding_model).encode question) top_k).map
                  (·.content))) 500
            ++ "...")
      ∧ isErr (ask_question env cache store question embedding_model top_k).result
        = false := by
  have hemp : (env.search ((env.models embedding_model).encode question) top_k).isEmpty
      = false := by
    simpa [List.isEmpty_iff] using hhits
  simp [ask_question, ask_question_body, hemp, hllm, answerOf, isErr,
    fallbackAnswer, specGroundingContext]

/-- Witness for the amended C5 at a concrete failing-LLM environment. -/
theorem ask_generation_failure_fallback_witness :
    ((∀ s p, envLlmFail.llm s p = none)
        ∧ envLlmFail.search ((envLlmFail.models "m").encode "q") 5 ≠ [])
      ∧ (answerOf (ask_question envLlmFail cache0 store384 "q" "m" 5).result
          = some ("Error conectando al LLM. Contexto encontrado:\n\n"
              ++ stringTakeChars (specGroundingContext
                  ((envLlmFail.search ((envLlmFail.models "m").encode "q") 5).map
                    (·.content))) 500
              ++ "...")
        ∧ isErr (ask_question envLlmFail cache0 store384 "q" "m" 5).result
          = false) :=
  ⟨⟨fun _ _ => rfl, by decide⟩,
    ask_generation_failure_fallback envLlmFail cache0 store384 "q" "m" 5
      (fun _ _ => rfl) (by decide)⟩

/-- Claim C6: the code intends to report zero matches distinctly (it raises
`HTTPException(404, "No se encontraron documentos relevantes")`), but the
endpoint's blanket `except Exception` catches that very exception — FastAPI's
`HTTPException` subclasses `Exception` — and re-raises it as a 500: at this
concrete zero-match input the response is an HTTP 500 server fault, not a
distinctly reported empty-result condition. -/
theorem ask_no_matches_reported_as_500 :
    (ask_question env384 cache0 store384 "q" "m" 5).result
        = .error ⟨500, "Error procesando pregunta: 404: No se encontraron documentos relevantes"⟩
      ∧ ((ask_question_body env384 cache0 store384 "q" "m" 5).result
        = .error ⟨404, "No se encontraron documentos relevantes"⟩) :=
  ⟨rfl, rfl⟩

/-- Claim C8: for every successful retrieval (the search returned at least
one match), the grounding context handed to the generation step equals the
matched content strings, in the descending-similarity order returned by the
store, joined with a blank-line separator; and the returned sources are
exactly the deduplicated set of distinct document names across the matches. -/
theorem ask_context_and_sources (env : Env) (cache : CacheState)
    (store : MilvusState) (question embedding_model : String) (top_k : Int)
    (hhits : env.search ((env.models embedding_model).encode question) top_k ≠ []) :
    ((ask_question env cache store question embedding_model top_k).trace).contextUsed
        = some (specGroundingContext
            ((env.search ((env.models embedding_model).encode question) top_k).map
              (·.content)))
      ∧ (sourcesOf (ask_question env cache store question embedding_model top_k).result).toFinset
        = specSources (env.search ((env.models embedding_model).encode question) top_k)
      ∧ (sourcesOf (ask_question env cache store question embedding_model top_k).result).Nodup := by
  have hemp : (env.search ((env.models embedding_model).encode question) top_k).isEmpty
      = false := by
    simpa [List.isEmpty_iff] using hhits
  refine ⟨?_, ?_, ?_⟩ <;>
    simp [ask_question, ask_question_body, hemp, sourcesOf, specGroundingContext,
      specSources, dedupAppend_toFinset, dedupAppend_nodup]

/-- Witness for C8 at a concrete one-hit environment. -/
theorem ask_context_and_sources_witness :
    (envLlmFail.search ((envLlmFail.models "m").encode "q") 5 ≠ [])
      ∧ (((ask_question envLlmFail cache0 store384 "q" "m" 5).trace).contextUsed
          = some (specGroundingContext
              ((envLlmFail.search ((envLlmFail.models "m").encode "q") 5).map
                (·.content)))
        ∧ (sourcesOf (ask_question envLlmFail cache0 store384 "q" "m" 5).result).toFinset
          = specSources (envLlmFail.search ((envLlmFail.models "m").encode "q") 5)
        ∧ (sourcesOf (ask_question envLlmFail cache0 store384 "q" "m" 5).result).Nodup) :=
  ⟨by decide,
    ask_context_and_sources envLlmFail cache0 store384 "q" "m" 5 (by decide)⟩

/-- A predicate that holds on every copy of a replicated element lets the
filter keep the whole replicated list. -/
theorem filter_replicate_of_pos {α : Type} (p : α → Bool) (a : α) (n : Nat)
    (h : p a = true) :
    (List.replicate n a).filter p = List.replicate n a := by
  induction n with
  | zero => rfl
  | succ n ih => simp [List.replicate_succ, List.filter_cons, h, ih]

/-- A predicate that fails on every copy of a replicated element lets the
filter discard the whole replicated list. -/
theorem filter_replicate_of_neg {α : Type} (p : α → Bool) (a : α) (n : Nat)
    (h : p a = false) :
    (List.replicate n a).filter p = [] := by
  induction n with
  | zero => rfl
  | succ n ih => simp [List.replicate_succ, List.filter_cons, h, ih]

/-- Folding the grouping step over `n` copies of a row whose document is the
single accumulated entry adds `n` to that entry's chunk count. -/
theorem groupStep_fold_replicate (n : Nat) (d : DocSummary) (r : Row)
    (h : d.id = r.document_id) :
    List.foldl groupStep [d] (List.replicate n r)
      = [{ d with chunks := d.chunks + n }] := by
  induction n generalizing d with
  | zero => simp
  | succ n ih =>
    rw [List.replicate_succ, List.foldl_cons]
    have hstep : groupStep [d] r = [{ d with chunks := d.chunks + 1 }] := by
      simp [groupStep, h]
    rw [hstep, ih { d with chunks := d.chunks + 1 } h]
    have harith : d.chunks + 1 + n = d.chunks + (n + 1) := by omega
    rw [harith]

/-- The rows `list_documents` consults in `bigStore` are the first 1000
copies of the document-"A" row: the limit cuts off both the 1001st "A"
chunk and the "B" chunk. -/
theorem list_documents_queried_bigStore :
    list_documents_queried bigStore = List.replicate 1000 rowA := by
  have hfb : (List.replicate 1001 rowA ++ [rowB]).filter
      (fun r => r.document_id != "") = List.replicate 1001 rowA ++ [rowB] := by
    rw [List.filter_append,
      filter_replicate_of_pos (fun r : Row => r.document_id != "") rowA 1001
        (by decide)]
    rfl
  have htake : (List.replicate 1001 rowA ++ [rowB]).take 1000
      = List.replicate 1000 rowA := by
    rw [List.take_append_eq_append_take, List.take_replicate]
    simp
  simp only [list_documents_queried, bigStore]
  rw [hfb, htake]

/-- Claim C9: `list_documents` consults at most 1000 chunk rows in every
state; and in the concrete state `bigStore` — 1001 chunks of document "A"
followed by one chunk of document "B", 1002 chunks in total — the listing
contains only document "A" with chunk count 1000: document "B" is absent
and "A"'s reported count undercounts its 1001 stored chunks. -/
theorem list_documents_limit_1000 :
    (∀ s : MilvusState, (list_documents_queried s).length ≤ 1000)
      ∧ bigStore.rows.length = 1002
      ∧ list_documents bigStore = [⟨"A", "a.txt", "2024", 1000⟩]
      ∧ (bigStore.rows.filter (fun r => r.document_id == "A")).length = 1001
      ∧ (bigStore.rows.filter (fun r => r.document_id == "B")).length = 1 := by
  refine ⟨fun s => ?_, ?_, ?_, ?_, ?_⟩
  · exact List.length_take_le 1000 (s.rows.filter (fun r => r.document_id != ""))
  · simp [bigStore]
  · have hconn : connect_milvus bigStore = bigStore := rfl
    have h1000 : (1000 : Nat) = 999 + 1 := rfl
    rw [list_documents, hconn, list_documents_queried_bigStore]
    rw [groupDocs, h1000, List.replicate_succ, List.foldl_cons]
    have hfirst : groupStep [] rowA = [⟨"A", "a.txt", "2024", 1⟩] := by decide
    rw [hfirst, groupStep_fold_replicate 999 ⟨"A", "a.txt", "2024", 1⟩ rowA rfl]
  · rw [show bigStore.rows = List.replicate 1001 rowA ++ [rowB] from rfl,
      List.filter_append,
      filter_replicate_of_pos (fun r : Row => r.document_id == "A") rowA 1001
        (by decide),
      show List.filter (fun r : Row => r.document_id == "A") [rowB] = [] from rfl]
    simp
  · rw [show bigStore.rows = List.replicate 1001 rowA ++ [rowB] from rfl,
      List.filter_append,
      filter_replicate_of_neg (fun r : Row => r.document_id == "B") rowA 1001
        (by decide),
      show List.filter (fun r : Row => r.document_id == "B") [rowB] = [rowB] from rfl]
    rfl

end RagBackend
